import Mathlib

/-!
Verification of the notes CRUD HTTP service (Rust, axum + sqlx + MySQL).

The handlers in `src/handler.rs` (and the duplicated units
`src/handler-edit-note.rs`, `src/handler-delete-note.rs`) are embedded as
pure functions over the database state, modelled as a list of `NoteModel`
rows.  Database calls that can fail at the driver level are modelled by an
explicit fault schedule: each database call consumes one entry of a
`List (Option String)`; `some msg` means that call returns a driver error
whose text is `msg`, `none` means the call reaches the datastore normally.
An empty schedule means a fully healthy connection.  A Rust panic
(`Option::unwrap` on a missing timestamp) is modelled by the handler
returning `none`.
-/

/-- The persisted note row (struct `NoteModel` in `src/model.rs`, not under
`src/`).  Modelled from the spec: `id`, `title`, `content` strings;
`is_published` persisted as a small integer 0/1; `created_at` / `updated_at`
datastore-assigned timestamps, optional in the in-memory representation.
Timestamps are abstracted as natural numbers. -/
structure NoteModel where
  id : String
  title : String
  content : String
  is_published : Int
  created_at : Option Nat
  updated_at : Option Nat
deriving Repr, DecidableEq

/-- The API-facing projection (struct `NoteModelResponse` in `src/model.rs`,
not under `src/`).  Modelled from the spec: identical fields except
`is_published` is a genuine boolean and the timestamps are mandatory. -/
structure NoteModelResponse where
  id : String
  title : String
  content : String
  is_published : Bool
  created_at : Nat
  updated_at : Nat
deriving Repr, DecidableEq

/-- Pagination query (struct `FilterOptions` in `src/schema.rs`, not under
`src/`).  Modelled from the spec: `page` and `limit` optional integers,
with no validation beyond integer parsing. -/
structure FilterOptions where
  page : Option Int := none
  limit : Option Int := none
deriving Repr, DecidableEq

/-- Create payload (struct `CreateNoteSchema` in `src/schema.rs`, not under
`src/`).  Modelled from the spec: required `title` and `content`. -/
structure CreateNoteSchema where
  title : String
  content : String
deriving Repr, DecidableEq

/-- Update payload (struct `UpdateNoteSchema` in `src/schema.rs`, not under
`src/`).  Modelled from the spec: all fields optional. -/
structure UpdateNoteSchema where
  title : Option String := none
  content : Option String := none
  is_published : Option Bool := none
deriving Repr, DecidableEq

/-- Shape of the JSON (or empty) bodies the handlers build. -/
inductive Body where
  | statusMsg (status : String) (message : String)
  | noteData (status : String) (note : NoteModelResponse)
  | listBody (status : String) (count : Nat) (notes : List NoteModelResponse)
  | empty
deriving Repr, DecidableEq

/-- An HTTP response: status code plus body.  The Rust handlers return
`Result<impl IntoResponse, (StatusCode, Json<Value>)>`; the `Ok` branch
carries status 200 and the `Err` branch carries the explicit code, so a
single response type suffices. -/
structure HttpResponse where
  code : Nat
  body : Body
deriving Repr, DecidableEq

/-- The `format!("La nota con el ID: {} no encontrado", id)` message used by
the get / edit / delete not-found branches. -/
def notFoundMsg (id : String) : String :=
  "La nota con el ID: " ++ id ++ " no encontrado"

/-- Does `pat` occur at the start of `s`? (over character lists). -/
def hasPre : List Char → List Char → Bool
  | _, [] => true
  | [], _ :: _ => false
  | a :: s, b :: p => (a == b) && hasPre s p

/-- Does `pat` occur anywhere in `s`? (over character lists). -/
def hasSub : List Char → List Char → Bool
  | [], pat => pat.isEmpty
  | a :: rest, pat => hasPre (a :: rest) pat || hasSub rest pat

/-- Substring test, modelling Rust `str::contains`. -/
def containsSub (s pat : String) : Bool :=
  hasSub s.data pat.data

/-- Pop the next entry of the fault schedule (an exhausted schedule means
no fault). -/
def nextFault : List (Option String) → Option String × List (Option String)
  | [] => (none, [])
  | f :: fs => (f, fs)

/-- `fn to_note_response` (src/handler.rs:285-294).  The two
`Option::unwrap` calls on the timestamps panic when the field is absent;
the panic is modelled by `none`. -/
def to_note_response (note : NoteModel) : Option NoteModelResponse :=
  match note.created_at, note.updated_at with
  | some c, some u =>
      some { id := note.id, title := note.title, content := note.content,
             is_published := note.is_published != 0,
             created_at := c, updated_at := u }
  | _, _ => none

/-- Total variant of the projection, used to state lemmas about hydrated
rows (rows whose timestamps are present). -/
def noteResponseD (note : NoteModel) : NoteModelResponse :=
  { id := note.id, title := note.title, content := note.content,
    is_published := note.is_published != 0,
    created_at := note.created_at.getD 0, updated_at := note.updated_at.getD 0 }

/-- A row is hydrated when both datastore-assigned timestamps are present. -/
def hydratedNote (n : NoteModel) : Bool :=
  n.created_at.isSome && n.updated_at.isSome

/-- A table all of whose rows are hydrated. -/
def hydratedDb (db : List NoteModel) : Bool :=
  db.all hydratedNote

/-- `SELECT * FROM notes WHERE id = ?` with `fetch_one`: the matching row,
or `none` for `sqlx::Error::RowNotFound`. -/
def dbFindNote (db : List NoteModel) (id : String) : Option NoteModel :=
  db.find? (fun n => n.id == id)

/-- Insertion step of the by-`id` sort used to model `ORDER by id`. -/
def insertById (n : NoteModel) : List NoteModel → List NoteModel
  | [] => [n]
  | m :: ms => if n.id ≤ m.id then n :: m :: ms else m :: insertById n ms

/-- `ORDER by id` over the stored rows (ascending lexicographic id order). -/
def sortById (db : List NoteModel) : List NoteModel :=
  db.foldr insertById []

/-- Collect an optional projection over a list; a `none` anywhere models the
panic escaping the `map`/`collect` in the list handler. -/
def listMapOpt (f : NoteModel → Option NoteModelResponse) :
    List NoteModel → Option (List NoteModelResponse)
  | [] => some []
  | a :: l =>
    match f a, listMapOpt f l with
    | some b, some bs => some (b :: bs)
    | _, _ => none

/-- Effect of the update statement on one row: rows whose `id` matches get
the new title, content and published flag; others are untouched. -/
def applyUpdate (id title content : String) (pub : Int) (n : NoteModel) :
    NoteModel :=
  if n.id == id then
    { n with title := title, content := content, is_published := pub }
  else n

/-- `UPDATE notes SET title = ?, content = ?, is_published = ? WHERE id = ?`:
returns the number of matched rows and the updated table. -/
def dbUpdateNote (db : List NoteModel) (id title content : String)
    (pub : Int) : Nat × List NoteModel :=
  (db.countP (fun n => n.id == id), db.map (applyUpdate id title content pub))

/-- `DELETE FROM notes WHERE id = ?`: returns the number of affected rows
and the remaining table. -/
def dbDeleteNote (db : List NoteModel) (id : String) : Nat × List NoteModel :=
  (db.countP (fun n => n.id == id),
   db.filter (fun n => !(n.id == id)))

/-- Driver error text for a duplicate primary key on insert; what matters to
the handler is that it contains the substring `Duplicate entry`. -/
def duplicateEntryMsg (id : String) : String :=
  "Duplicate entry" ++ (" " ++ (id ++ " for key PRIMARY"))

/-- `INSERT INTO notes (id, title, content) VALUES (?, ?, ?)`: the datastore
fills `is_published` with its column default 0 and both timestamps with the
current time `now`; a duplicate id fails with a `Duplicate entry` error. -/
def dbInsertNote (db : List NoteModel) (id title content : String)
    (now : Nat) : Except String (List NoteModel) :=
  if db.any (fun n => n.id == id) then
    .error (duplicateEntryMsg id)
  else
    .ok (db ++ [{ id := id, title := title, content := content,
                  is_published := 0,
                  created_at := some now, updated_at := some now }])

/-- `async fn health_check_handler` (src/handler.rs:17-26). -/
def health_check_handler : HttpResponse :=
  { code := 200, body := .statusMsg "ok" "API" }

/-- `async fn note_list_handler` (src/handler.rs:28-67): defaults
`limit = 10`, `page = 1`, offset `(page - 1) * limit`, rows in ascending id
order from `offset`, at most `limit` of them; `count` is the number
returned.  A datastore error yields 500 with a `Database error:` message. -/
def note_list_handler (opts : FilterOptions) (db : List NoteModel)
    (faults : List (Option String)) : Option HttpResponse :=
  let limit := opts.limit.getD 10
  let offset := (opts.page.getD 1 - 1) * limit
  let (f1, _) := nextFault faults
  match f1 with
  | some msg => some { code := 500, body := .statusMsg "error" ("Database error: " ++ msg) }
  | none =>
    let notes := ((sortById db).drop offset.toNat).take limit.toNat
    match listMapOpt to_note_response notes with
    | none => none
    | some rs => some { code := 200, body := .listBody "ok" rs.length rs }

/-- `async fn create_note_handler` (src/handler.rs:70-119): generate an id
(passed as the `genId` parameter, standing for `uuid::Uuid::new_v4()`),
insert id/title/content, dispatch insert errors on the `Duplicate entry`
substring, then re-fetch the row and respond with its projection. -/
def create_note_handler (genId : String) (now : Nat)
    (body : CreateNoteSchema) (db : List NoteModel)
    (faults : List (Option String)) :
    Option (HttpResponse × List NoteModel) :=
  let (f1, faults1) := nextFault faults
  let insertRes : Except String (List NoteModel) :=
    match f1 with
    | some err => .error err
    | none => dbInsertNote db genId body.title body.content now
  match insertRes with
  | .error err =>
    if containsSub err "Duplicate entry" then
      some ({ code := 409, body := .statusMsg "error" "Note already exists" }, db)
    else
      some ({ code := 500, body := .statusMsg "error" err }, db)
  | .ok db1 =>
    let (f2, _) := nextFault faults1
    match f2 with
    | some msg => some ({ code := 500, body := .statusMsg "error" msg }, db1)
    | none =>
      match dbFindNote db1 genId with
      | none => some ({ code := 500, body := .statusMsg "error" "RowNotFound" }, db1)
      | some note =>
        match to_note_response note with
        | none => none
        | some r => some ({ code := 200, body := .noteData "success" r }, db1)

/-- `async fn get_note_handler` (src/handler.rs:122-163): fetch by id;
`RowNotFound` yields 404 with status `fail`, any other datastore error 500. -/
def get_note_handler (id : String) (db : List NoteModel)
    (faults : List (Option String)) : Option HttpResponse :=
  let (f1, _) := nextFault faults
  match f1 with
  | some msg => some { code := 500, body := .statusMsg "error" msg }
  | none =>
    match dbFindNote db id with
    | none => some { code := 404, body := .statusMsg "fail" (notFoundMsg id) }
    | some note =>
      match to_note_response note with
      | none => none
      | some r => some { code := 200, body := .noteData "success" r }

/-- `async fn edit_note_handler` (src/handler.rs:166-251 and the identical
src/handler-edit-note.rs): fetch the existing row (404 with status `error`
when absent), merge the optional payload fields over the stored values,
issue the update, 404 again when zero rows were affected, then re-fetch and
respond with the projection.  Returns the response together with the table
state it leaves behind. -/
def edit_note_handler (id : String) (body : UpdateNoteSchema)
    (db : List NoteModel) (faults : List (Option String)) :
    Option (HttpResponse × List NoteModel) :=
  let (f1, faults1) := nextFault faults
  match f1 with
  | some msg => some ({ code := 500, body := .statusMsg "error" msg }, db)
  | none =>
    match dbFindNote db id with
    | none => some ({ code := 404, body := .statusMsg "error" (notFoundMsg id) }, db)
    | some note =>
      let is_published := body.is_published.getD (note.is_published != 0)
      let i8_is_published : Int := if is_published then 1 else 0
      let (f2, faults2) := nextFault faults1
      match f2 with
      | some msg => some ({ code := 500, body := .statusMsg "error" msg }, db)
      | none =>
        let (rows, db1) := dbUpdateNote db id (body.title.getD note.title)
          (body.content.getD note.content) i8_is_published
        if rows == 0 then
          some ({ code := 404, body := .statusMsg "error" (notFoundMsg id) }, db1)
        else
          let (f3, _) := nextFault faults2
          match f3 with
          | some msg => some ({ code := 500, body := .statusMsg "error" msg }, db1)
          | none =>
            match dbFindNote db1 id with
            | none => some ({ code := 500, body := .statusMsg "error" "RowNotFound" }, db1)
            | some updated =>
              match to_note_response updated with
              | none => none
              | some r => some ({ code := 200, body := .noteData "success" r }, db1)

/-- `async fn delete_note_handler` (src/handler.rs:254-282 and the identical
src/handler-delete-note.rs): issue the delete; zero affected rows yields
404 with status `error`, otherwise 200 with an empty body. -/
def delete_note_handler (id : String) (db : List NoteModel)
    (faults : List (Option String)) :
    Option (HttpResponse × List NoteModel) :=
  let (f1, _) := nextFault faults
  match f1 with
  | some msg => some ({ code := 500, body := .statusMsg "error" msg }, db)
  | none =>
    let (rows, db1) := dbDeleteNote db id
    if rows == 0 then
      some ({ code := 404, body := .statusMsg "error" (notFoundMsg id) }, db1)
    else
      some ({ code := 200, body := .empty }, db1)

/-- Observable outcome of process startup. -/
inductive StartupResult where
  | panicked (msg : String)
  | exited (code : Nat)
  | serving
deriving Repr, DecidableEq

/-- Startup of `async fn main` (src/main.rs:22-41): absent `DATABASE_URL`
panics via `.expect("DATABASE_URL must set")` before any connection attempt;
a failed connection logs and calls `std::process::exit(1)`; otherwise the
server is built and serves. -/
def mainStartup (databaseUrl : Option String) (connectOk : Bool) :
    StartupResult :=
  match databaseUrl with
  | none => .panicked "DATABASE_URL must set"
  | some _ => if connectOk then .serving else .exited 1

/-- Startup of the minimal entry point `async fn main`
(src/main-mysql.rs:14-33): identical bootstrap logic. -/
def mainMysqlStartup (databaseUrl : Option String) (connectOk : Bool) :
    StartupResult :=
  match databaseUrl with
  | none => .panicked "DATABASE_URL must set"
  | some _ => if connectOk then .serving else .exited 1

/-! ### Helper lemmas -/

theorem to_note_response_hydrated (n : NoteModel) (h : hydratedNote n = true) :
    to_note_response n = some (noteResponseD n) := by
  cases hc : n.created_at with
  | none => simp [hydratedNote, hc] at h
  | some c =>
    cases hu : n.updated_at with
    | none => simp [hydratedNote, hu] at h
    | some u => simp [to_note_response, noteResponseD, hc, hu]

theorem listMapOpt_hydrated (l : List NoteModel)
    (h : ∀ n ∈ l, hydratedNote n = true) :
    listMapOpt to_note_response l = some (l.map noteResponseD) := by
  induction l with
  | nil => rfl
  | cons a as ih =>
    have ha := h a (List.mem_cons_self a as)
    have has := ih (fun n hn => h n (List.mem_cons_of_mem a hn))
    simp [listMapOpt, to_note_response_hydrated a ha, has]

theorem mem_insertById (m n : NoteModel) (l : List NoteModel) :
    m ∈ insertById n l ↔ m = n ∨ m ∈ l := by
  induction l with
  | nil => simp [insertById]
  | cons a as ih =>
    by_cases h : n.id ≤ a.id
    · rw [insertById, if_pos h]
      simp [List.mem_cons]
    · rw [insertById, if_neg h]
      simp only [List.mem_cons, ih]
      tauto

theorem mem_sortById (m : NoteModel) (l : List NoteModel) :
    m ∈ sortById l ↔ m ∈ l := by
  induction l with
  | nil => simp [sortById]
  | cons a as ih =>
    have : sortById (a :: as) = insertById a (sortById as) := rfl
    rw [this, mem_insertById, ih, List.mem_cons]

theorem pairwise_insertById (n : NoteModel) (l : List NoteModel)
    (h : l.Pairwise (fun a b => a.id ≤ b.id)) :
    (insertById n l).Pairwise (fun a b => a.id ≤ b.id) := by
  induction l with
  | nil => simp [insertById]
  | cons m ms ih =>
    rw [List.pairwise_cons] at h
    obtain ⟨hm, hms⟩ := h
    by_cases hle : n.id ≤ m.id
    · rw [insertById, if_pos hle]
      refine List.Pairwise.cons ?_ (List.Pairwise.cons hm hms)
      intro b hb
      rcases List.mem_cons.mp hb with rfl | hb
      · exact hle
      · exact le_trans hle (hm b hb)
    · rw [insertById, if_neg hle]
      refine List.Pairwise.cons ?_ (ih hms)
      intro b hb
      rcases (mem_insertById b n ms).mp hb with rfl | hb
      · exact le_of_not_le hle
      · exact hm b hb

theorem pairwise_sortById (l : List NoteModel) :
    (sortById l).Pairwise (fun a b => a.id ≤ b.id) := by
  induction l with
  | nil => simp [sortById]
  | cons a as ih => exact pairwise_insertById a (sortById as) ih

theorem applyUpdate_id (id t c : String) (pub : Int) (n : NoteModel) :
    (applyUpdate id t c pub n).id = n.id := by
  unfold applyUpdate
  split <;> rfl

theorem find?_map_applyUpdate (db : List NoteModel) (id t c : String)
    (pub : Int) (note : NoteModel)
    (h : db.find? (fun n => n.id == id) = some note) :
    (db.map (applyUpdate id t c pub)).find? (fun n => n.id == id) =
      some (applyUpdate id t c pub note) := by
  induction db with
  | nil => simp [List.find?] at h
  | cons a as ih =>
    have hup : ((applyUpdate id t c pub a).id == id) = (a.id == id) := by
      rw [applyUpdate_id]
    by_cases ha : (a.id == id) = true
    · have hpa : ((fun n : NoteModel => n.id == id) a) = true := ha
      rw [List.find?_cons_of_pos as hpa] at h
      injection h with h
      subst h
      have hpu : ((fun n : NoteModel => n.id == id) (applyUpdate id t c pub a)) = true := by
        simp only [hup]
        exact ha
      rw [List.map_cons, List.find?_cons_of_pos (List.map (applyUpdate id t c pub) as) hpu]
    · have hpa : ¬ ((fun n : NoteModel => n.id == id) a) = true := ha
      rw [List.find?_cons_of_neg as hpa] at h
      have hpu : ¬ ((fun n : NoteModel => n.id == id) (applyUpdate id t c pub a)) = true := by
        simp only [hup]
        exact ha
      rw [List.map_cons, List.find?_cons_of_neg (List.map (applyUpdate id t c pub) as) hpu]
      exact ih h

theorem countP_ne_zero_of_find? (db : List NoteModel) (p : NoteModel → Bool)
    (x : NoteModel) (h : db.find? p = some x) : db.countP p ≠ 0 := by
  have hx := List.find?_some h
  have hmem := List.mem_of_find?_eq_some h
  have hpos : 0 < db.countP p := List.countP_pos_iff.mpr ⟨x, hmem, hx⟩
  omega

theorem find?_append_none (db l : List NoteModel) (p : NoteModel → Bool)
    (h : db.find? p = none) : (db ++ l).find? p = l.find? p := by
  induction db with
  | nil => rfl
  | cons a as ih =>
    have ha : ¬ p a = true := by
      intro hpa
      rw [List.find?_cons_of_pos _ hpa] at h
      exact Option.noConfusion h
    rw [List.find?_cons_of_neg _ ha] at h
    rw [List.cons_append, List.find?_cons_of_neg _ ha]
    exact ih h

theorem find?_eq_none_of_any_false (db : List NoteModel) (p : NoteModel → Bool)
    (h : db.any p = false) : db.find? p = none := by
  rw [List.find?_eq_none]
  intro x hx hpx
  have hany : db.any p = true := List.any_eq_true.mpr ⟨x, hx, hpx⟩
  rw [h] at hany
  exact Bool.noConfusion hany

theorem filter_not_eq_self_of_countP_zero (db : List NoteModel)
    (p : NoteModel → Bool) (h : db.countP p = 0) :
    db.filter (fun n => !(p n)) = db := by
  induction db with
  | nil => rfl
  | cons a as ih =>
    rw [List.countP_cons] at h
    have hpa : p a = false := by
      cases hb : p a
      · rfl
      · rw [hb] at h
        simp at h
    rw [hpa] at h
    simp only [if_neg Bool.false_ne_true, Nat.add_zero] at h
    rw [List.filter_cons]
    simp [hpa, ih h]

theorem countP_filter_not (db : List NoteModel) (p : NoteModel → Bool) :
    (db.filter (fun n => !(p n))).countP p = 0 := by
  induction db with
  | nil => rfl
  | cons a as ih =>
    rw [List.filter_cons]
    cases hb : p a
    · simp [hb, List.countP_cons, ih]
    · simp [hb, ih]

theorem hasPre_append (p t : List Char) : hasPre (p ++ t) p = true := by
  induction p with
  | nil =>
    cases t with
    | nil => rfl
    | cons a s => rfl
  | cons a p ih => simp [hasPre, ih]

theorem hasSub_of_hasPre (s pat : List Char) (h : hasPre s pat = true) :
    hasSub s pat = true := by
  cases s with
  | nil =>
    cases pat with
    | nil => rfl
    | cons b p => simp [hasPre] at h
  | cons a rest => simp [hasSub, h]

theorem duplicate_msg_contains (id : String) :
    containsSub (duplicateEntryMsg id) "Duplicate entry" = true := by
  unfold containsSub duplicateEntryMsg
  apply hasSub_of_hasPre
  have hdata : ("Duplicate entry" ++ (" " ++ (id ++ " for key PRIMARY"))).data
      = "Duplicate entry".data ++ (" " ++ (id ++ " for key PRIMARY")).data := rfl
  rw [hdata]
  exact hasPre_append "Duplicate entry".data (" " ++ (id ++ " for key PRIMARY")).data

theorem hydrated_of_mem_segment (db : List NoteModel) (k m : Nat)
    (h : hydratedDb db = true) :
    ∀ n ∈ ((sortById db).drop k).take m, hydratedNote n = true := by
  intro n hn
  have hsub : List.Sublist (((sortById db).drop k).take m) (sortById db) :=
    (List.take_sublist m ((sortById db).drop k)).trans (List.drop_sublist k (sortById db))
  have hmem : n ∈ sortById db := hsub.subset hn
  have hmem2 : n ∈ db := (mem_sortById n db).mp hmem
  exact List.all_eq_true.mp h n hmem2

theorem note_list_handler_healthy (p l : Int) (db : List NoteModel)
    (h : hydratedDb db = true) :
    note_list_handler { page := some p, limit := some l } db [] =
      some { code := 200,
             body := .listBody "ok"
               ((((sortById db).drop (((p - 1) * l).toNat)).take l.toNat).map noteResponseD).length
               ((((sortById db).drop (((p - 1) * l).toNat)).take l.toNat).map noteResponseD) } := by
  have hmap := listMapOpt_hydrated
    (((sortById db).drop (((p - 1) * l).toNat)).take l.toNat)
    (hydrated_of_mem_segment db (((p - 1) * l).toNat) l.toNat h)
  simp [note_list_handler, nextFault, hmap]

/-! ### Claim theorems -/

/-- C2: for every id matching no stored note, the get operation returns
HTTP 404 with body status `fail` and message `La nota con el ID: <id> no
encontrado`, while the edit operation for the same not-found condition
returns HTTP 404 with status `error` and the same message template. -/
theorem c2_not_found_status_bodies (id : String) (db : List NoteModel)
    (body : UpdateNoteSchema) (h : dbFindNote db id = none) :
    get_note_handler id db [] =
      some { code := 404,
             body := .statusMsg "fail"
               ("La nota con el ID: " ++ id ++ " no encontrado") } ∧
    edit_note_handler id body db [] =
      some ({ code := 404,
              body := .statusMsg "error"
                ("La nota con el ID: " ++ id ++ " no encontrado") }, db) := by
  constructor
  · simp [get_note_handler, nextFault, h, notFoundMsg]
  · simp [edit_note_handler, nextFault, h, notFoundMsg]

theorem c2_witness :
    get_note_handler "abc" [] [] =
      some { code := 404,
             body := .statusMsg "fail"
               ("La nota con el ID: " ++ "abc" ++ " no encontrado") } ∧
    edit_note_handler "abc" {} [] [] =
      some ({ code := 404,
              body := .statusMsg "error"
                ("La nota con el ID: " ++ "abc" ++ " no encontrado") }, []) :=
  c2_not_found_status_bodies "abc" [] {} rfl

/-- C6: the delete operation responds HTTP 404 with status `error` and the
`no encontrado` message exactly when the delete statement affects zero
rows, and HTTP 200 with an empty body otherwise; deleting an existing note
returns 200 and a second delete of the same id returns the 404. -/
theorem c6_delete_note_semantics (id : String) (db : List NoteModel) :
    (db.countP (fun n => n.id == id) = 0 →
      delete_note_handler id db [] =
        some ({ code := 404, body := .statusMsg "error" (notFoundMsg id) }, db)) ∧
    (db.countP (fun n => n.id == id) ≠ 0 →
      delete_note_handler id db [] =
        some ({ code := 200, body := .empty },
              db.filter (fun n => !(n.id == id))) ∧
      delete_note_handler id (db.filter (fun n => !(n.id == id))) [] =
        some ({ code := 404, body := .statusMsg "error" (notFoundMsg id) },
              db.filter (fun n => !(n.id == id)))) := by
  refine ⟨fun h0 => ?_, fun hne => ⟨?_, ?_⟩⟩
  · have hfix := filter_not_eq_self_of_countP_zero db (fun n => n.id == id) h0
    simp [delete_note_handler, nextFault, dbDeleteNote, h0, hfix]
  · have hbeq : (db.countP (fun n => n.id == id) == 0) = false := by
      cases hv : (db.countP (fun n => n.id == id) == 0)
      · rfl
      · exact absurd (eq_of_beq hv) hne
    simp [delete_note_handler, nextFault, dbDeleteNote, hbeq]
  · have h0 : (db.filter (fun n => !(n.id == id))).countP (fun n => n.id == id) = 0 :=
      countP_filter_not db (fun n => n.id == id)
    have hfix := filter_not_eq_self_of_countP_zero
      (db.filter (fun n => !(n.id == id))) (fun n => n.id == id) h0
    simp [delete_note_handler, nextFault, dbDeleteNote, h0, hfix]

def c6Note : NoteModel :=
  { id := "x", title := "t", content := "c", is_published := 0,
    created_at := some 1, updated_at := some 1 }

theorem c6_witness :
    [c6Note].countP (fun n => n.id == "x") ≠ 0 ∧
    (delete_note_handler "x" [c6Note] [] =
       some ({ code := 200, body := .empty },
             [c6Note].filter (fun n => !(n.id == "x"))) ∧
     delete_note_handler "x" ([c6Note].filter (fun n => !(n.id == "x"))) [] =
       some ({ code := 404, body := .statusMsg "error" (notFoundMsg "x") },
             [c6Note].filter (fun n => !(n.id == "x")))) :=
  ⟨by decide, (c6_delete_note_semantics "x" [c6Note]).2 (by decide)⟩

/-- C7: the projection of a note record requires both timestamp fields as a
precondition — if either is absent the request aborts abnormally (modelled
as `none`) — and under the precondition it produces a response whose
`is_published` is the boolean coercion of the stored 0/1 value with all
other fields copied verbatim. -/
theorem c7_to_note_response_spec (note : NoteModel) :
    ((note.created_at = none ∨ note.updated_at = none) →
      to_note_response note = none) ∧
    (∀ c u, note.created_at = some c → note.updated_at = some u →
      to_note_response note =
        some { id := note.id, title := note.title, content := note.content,
               is_published := note.is_published != 0,
               created_at := c, updated_at := u }) := by
  constructor
  · intro h
    cases hc : note.created_at with
    | none =>
      cases hu : note.updated_at <;> simp [to_note_response, hc, hu]
    | some c =>
      cases hu : note.updated_at with
      | none => simp [to_note_response, hc, hu]
      | some u =>
        rcases h with h | h
        · rw [hc] at h
          exact Option.noConfusion h
        · rw [hu] at h
          exact Option.noConfusion h
  · intro c u hc hu
    simp [to_note_response, hc, hu]

def c7NoteA : NoteModel :=
  { id := "a", title := "t", content := "c", is_published := 1,
    created_at := none, updated_at := some 3 }

def c7NoteB : NoteModel :=
  { id := "b", title := "t", content := "c", is_published := 1,
    created_at := some 2, updated_at := some 3 }

theorem c7_witness :
    to_note_response c7NoteA = none ∧
    to_note_response c7NoteB =
      some { id := c7NoteB.id, title := c7NoteB.title, content := c7NoteB.content,
             is_published := c7NoteB.is_published != 0,
             created_at := 2, updated_at := 3 } :=
  ⟨(c7_to_note_response_spec c7NoteA).1 (Or.inl rfl),
   (c7_to_note_response_spec c7NoteB).2 2 3 rfl rfl⟩

/-- C9: at startup of either entry point, an absent `DATABASE_URL`
environment variable terminates the process with the message
`DATABASE_URL must set` before the connection outcome is ever consulted,
and a failed database connection makes the process exit with status code 1;
a successful connection leads to serving. -/
theorem c9_startup_failure_semantics (b : Bool) (url : String) :
    mainStartup none b = .panicked "DATABASE_URL must set" ∧
    mainMysqlStartup none b = .panicked "DATABASE_URL must set" ∧
    mainStartup (some url) false = .exited 1 ∧
    mainMysqlStartup (some url) false = .exited 1 ∧
    mainStartup (some url) true = .serving ∧
    mainMysqlStartup (some url) true = .serving :=
  ⟨rfl, rfl, rfl, rfl, rfl, rfl⟩

def c10Note : NoteModel :=
  { id := "n1", title := "A", content := "B", is_published := 0,
    created_at := some 5, updated_at := some 5 }

/-- C10: the edit operation is not atomic with respect to error responses:
there is an execution in which the update statement succeeds but the
subsequent re-fetch fails, the handler returns HTTP 500, and the stored
note has nevertheless been changed. -/
theorem c10_edit_not_atomic_on_refetch_failure :
    edit_note_handler "n1" { content := some "C" } [c10Note]
        [none, none, some "connection reset"] =
      some ({ code := 500, body := .statusMsg "error" "connection reset" },
            [{ c10Note with content := "C" }]) ∧
    [{ c10Note with content := "C" }] ≠ [c10Note] := by
  constructor
  · decide
  · decide

/-- C3: the list operation uses limit defaulting to 10 and page defaulting
to 1, computes offset (page - 1) * limit, returns the stored notes in
ascending id order starting at that offset and at most limit of them, with
HTTP 200 and a count field equal to the number of notes returned. -/
theorem c3_note_list_pagination (p l : Int) (db : List NoteModel)
    (h : hydratedDb db = true) :
    ∃ rs : List NoteModelResponse,
      note_list_handler { page := some p, limit := some l } db [] =
        some { code := 200, body := .listBody "ok" rs.length rs } ∧
      rs = (((sortById db).drop (((p - 1) * l).toNat)).take l.toNat).map noteResponseD ∧
      rs.Pairwise (fun a b => a.id ≤ b.id) ∧
      note_list_handler { page := none, limit := none } db [] =
        note_list_handler { page := some 1, limit := some 10 } db [] := by
  refine ⟨_, note_list_handler_healthy p l db h, rfl, ?_, rfl⟩
  rw [List.pairwise_map]
  have hseg : List.Sublist
      (((sortById db).drop (((p - 1) * l).toNat)).take l.toNat) (sortById db) :=
    (List.take_sublist l.toNat ((sortById db).drop (((p - 1) * l).toNat))).trans
      (List.drop_sublist (((p - 1) * l).toNat) (sortById db))
  exact List.Pairwise.sublist hseg (pairwise_sortById db)

def c3Db : List NoteModel :=
  [{ id := "b", title := "t2", content := "c2", is_published := 0,
     created_at := some 2, updated_at := some 2 },
   { id := "a", title := "t1", content := "c1", is_published := 1,
     created_at := some 1, updated_at := some 1 }]

theorem c3_witness :
    hydratedDb c3Db = true ∧
    ∃ rs : List NoteModelResponse,
      note_list_handler { page := some 2, limit := some 1 } c3Db [] =
        some { code := 200, body := .listBody "ok" rs.length rs } ∧
      rs = (((sortById c3Db).drop ((((2 : Int) - 1) * 1).toNat)).take (1 : Int).toNat).map noteResponseD ∧
      rs.Pairwise (fun a b => a.id ≤ b.id) ∧
      note_list_handler { page := none, limit := none } c3Db [] =
        note_list_handler { page := some 1, limit := some 10 } c3Db [] :=
  ⟨rfl, c3_note_list_pagination 2 1 c3Db rfl⟩

/-- C8: for every parsed page and limit value, including limit 0 and
non-positive page, the list operation performs no bound validation and does
not reject the request: it answers HTTP 200 with the rows selected at the
literally computed offset (page - 1) * limit. -/
theorem c8_list_no_bound_validation (p l : Int) (db : List NoteModel)
    (h : hydratedDb db = true) :
    ∃ rs : List NoteModelResponse,
      note_list_handler { page := some p, limit := some l } db [] =
        some { code := 200, body := .listBody "ok" rs.length rs } ∧
      rs = (((sortById db).drop (((p - 1) * l).toNat)).take l.toNat).map noteResponseD :=
  ⟨_, note_list_handler_healthy p l db h, rfl⟩

def c8Db : List NoteModel :=
  [{ id := "only", title := "t", content := "c", is_published := 0,
     created_at := some 1, updated_at := some 1 }]

theorem c8_witness :
    hydratedDb c8Db = true ∧
    ∃ rs : List NoteModelResponse,
      note_list_handler { page := some 0, limit := some 0 } c8Db [] =
        some { code := 200, body := .listBody "ok" rs.length rs } ∧
      rs = (((sortById c8Db).drop ((((0 : Int) - 1) * 0).toNat)).take (0 : Int).toNat).map noteResponseD :=
  ⟨rfl, c8_list_no_bound_validation 0 0 c8Db rfl⟩

/-- C1: for every stored note and every update payload, the edit operation
writes, for each of title, content and is_published, the payload value when
that field is supplied and the previously stored value when it is absent,
and answers 200 with the projection of the merged row. -/
theorem c1_edit_note_field_merge (db : List NoteModel) (note : NoteModel)
    (body : UpdateNoteSchema)
    (hfind : dbFindNote db note.id = some note)
    (hhyd : hydratedNote note = true)
    (hpub : note.is_published = 0 ∨ note.is_published = 1) :
    edit_note_handler note.id body db [] =
      some ({ code := 200,
              body := .noteData "success"
                (noteResponseD
                  { note with
                    title := body.title.getD note.title,
                    content := body.content.getD note.content,
                    is_published := match body.is_published with
                      | some b => if b then 1 else 0
                      | none => note.is_published }) },
        db.map (applyUpdate note.id (body.title.getD note.title)
          (body.content.getD note.content)
          (if body.is_published.getD (note.is_published != 0) then 1 else 0))) ∧
    dbFindNote
      (db.map (applyUpdate note.id (body.title.getD note.title)
        (body.content.getD note.content)
        (if body.is_published.getD (note.is_published != 0) then 1 else 0)))
      note.id =
      some { note with
             title := body.title.getD note.title,
             content := body.content.getD note.content,
             is_published := match body.is_published with
               | some b => if b then 1 else 0
               | none => note.is_published } := by
  have hpubeq : (if body.is_published.getD (note.is_published != 0) then (1 : Int) else 0) =
      (match body.is_published with
       | some b => if b then (1 : Int) else 0
       | none => note.is_published) := by
    cases body.is_published with
    | some b => rfl
    | none => rcases hpub with h | h <;> rw [h] <;> decide
  have hbeqself : (note.id == note.id) = true := beq_self_eq_true note.id
  have happly : applyUpdate note.id (body.title.getD note.title)
      (body.content.getD note.content)
      (if body.is_published.getD (note.is_published != 0) then 1 else 0) note =
      { note with
        title := body.title.getD note.title,
        content := body.content.getD note.content,
        is_published := match body.is_published with
          | some b => if b then 1 else 0
          | none => note.is_published } := by
    rw [applyUpdate, if_pos hbeqself, hpubeq]
  have hrows : db.countP (fun n => n.id == note.id) ≠ 0 :=
    countP_ne_zero_of_find? db (fun n => n.id == note.id) note hfind
  have hbeqrows : (db.countP (fun n => n.id == note.id) == 0) = false := by
    cases hv : (db.countP (fun n => n.id == note.id) == 0)
    · rfl
    · exact absurd (eq_of_beq hv) hrows
  have hfind1 := find?_map_applyUpdate db note.id (body.title.getD note.title)
    (body.content.getD note.content)
    (if body.is_published.getD (note.is_published != 0) then 1 else 0) note hfind
  rw [happly] at hfind1
  have hfind2 : dbFindNote
      (db.map (applyUpdate note.id (body.title.getD note.title)
        (body.content.getD note.content)
        (if body.is_published.getD (note.is_published != 0) then 1 else 0)))
      note.id =
      some { note with
             title := body.title.getD note.title,
             content := body.content.getD note.content,
             is_published := match body.is_published with
               | some b => if b then 1 else 0
               | none => note.is_published } := hfind1
  have hhyd2 : hydratedNote
      { note with
        title := body.title.getD note.title,
        content := body.content.getD note.content,
        is_published := match body.is_published with
          | some b => if b then 1 else 0
          | none => note.is_published } = true := hhyd
  have hresp := to_note_response_hydrated _ hhyd2
  refine ⟨?_, hfind2⟩
  simp [edit_note_handler, nextFault, hfind, dbUpdateNote, hbeqrows, hfind2, hresp]

def c1Note : NoteModel :=
  { id := "k", title := "A", content := "B", is_published := 0,
    created_at := some 1, updated_at := some 1 }

theorem c1_witness :
    dbFindNote [c1Note] c1Note.id = some c1Note ∧
    hydratedNote c1Note = true ∧
    (c1Note.is_published = 0 ∨ c1Note.is_published = 1) ∧
    ∃ st, edit_note_handler c1Note.id { content := some "C" } [c1Note] [] = some st ∧
      dbFindNote st.2 c1Note.id =
        some { id := "k", title := "A", content := "C", is_published := 0,
               created_at := some 1, updated_at := some 1 } := by
  refine ⟨rfl, rfl, Or.inl rfl, ?_⟩
  have h := c1_edit_note_field_merge [c1Note] c1Note { content := some "C" }
    rfl rfl (Or.inl rfl)
  exact ⟨_, h.1, h.2⟩

/-- C4: a successful create inserts a record carrying only the generated
id, the given title and content, with the column defaults for publication
status (unpublished) and timestamps, and responds HTTP 200 with status
`success` and the projection of the record re-fetched after insertion. -/
theorem c4_create_note_success (genId : String) (now : Nat)
    (body : CreateNoteSchema) (db : List NoteModel)
    (hfresh : db.any (fun n => n.id == genId) = false) :
    create_note_handler genId now body db [] =
      some ({ code := 200,
              body := .noteData "success"
                { id := genId, title := body.title, content := body.content,
                  is_published := false, created_at := now, updated_at := now } },
            db ++ [{ id := genId, title := body.title, content := body.content,
                     is_published := 0, created_at := some now,
                     updated_at := some now }]) := by
  have hnone : db.find? (fun n => n.id == genId) = none :=
    find?_eq_none_of_any_false db (fun n => n.id == genId) hfresh
  have happ := find?_append_none db
    [{ id := genId, title := body.title, content := body.content,
       is_published := 0, created_at := some now, updated_at := some now }]
    (fun n => n.id == genId) hnone
  simp [create_note_handler, nextFault, dbInsertNote, hfresh, dbFindNote, happ,
    List.find?, to_note_response]

theorem c4_witness :
    ([] : List NoteModel).any (fun n => n.id == "u1") = false ∧
    create_note_handler "u1" 7 { title := "T", content := "C" } [] [] =
      some ({ code := 200,
              body := .noteData "success"
                { id := "u1", title := "T", content := "C",
                  is_published := false, created_at := 7, updated_at := 7 } },
            [{ id := "u1", title := "T", content := "C", is_published := 0,
               created_at := some 7, updated_at := some 7 }]) :=
  ⟨rfl, c4_create_note_success "u1" 7 { title := "T", content := "C" } [] rfl⟩

/-- C5: when the insert fails, the create operation responds HTTP 409 with
status `error` and message `Note already exists` exactly when the
underlying error text contains the substring `Duplicate entry`, and HTTP
500 with the raw error detail for every other insert failure; a duplicate
generated id triggers the 409 branch. -/
theorem c5_create_insert_failure_dispatch (genId : String) (now : Nat)
    (body : CreateNoteSchema) (db : List NoteModel) (err : String) :
    (create_note_handler genId now body db [some err] =
      if containsSub err "Duplicate entry" then
        some ({ code := 409, body := .statusMsg "error" "Note already exists" }, db)
      else
        some ({ code := 500, body := .statusMsg "error" err }, db)) ∧
    (db.any (fun n => n.id == genId) = true →
      create_note_handler genId now body db [] =
        some ({ code := 409, body := .statusMsg "error" "Note already exists" }, db)) := by
  constructor
  · by_cases hc : containsSub err "Duplicate entry" = true
    · simp [create_note_handler, nextFault, hc]
    · have hcf : containsSub err "Duplicate entry" = false := by
        cases hv : containsSub err "Duplicate entry"
        · rfl
        · exact absurd hv hc
      simp [create_note_handler, nextFault, hcf]
  · intro hdup
    simp [create_note_handler, nextFault, dbInsertNote, hdup,
      duplicate_msg_contains]

def c5Note : NoteModel :=
  { id := "u", title := "t", content := "c", is_published := 0,
    created_at := some 1, updated_at := some 1 }

theorem c5_witness :
    [c5Note].any (fun n => n.id == "u") = true ∧
    create_note_handler "u" 1 { title := "t", content := "c" } [c5Note] [] =
      some ({ code := 409, body := .statusMsg "error" "Note already exists" },
            [c5Note]) ∧
    create_note_handler "u" 1 { title := "t", content := "c" } [c5Note]
        [some "io error"] =
      (if containsSub "io error" "Duplicate entry" then
        some ({ code := 409, body := .statusMsg "error" "Note already exists" },
              [c5Note])
      else
        some ({ code := 500, body := .statusMsg "error" "io error" }, [c5Note])) :=
  ⟨by decide,
   (c5_create_insert_failure_dispatch "u" 1 { title := "t", content := "c" }
     [c5Note] "io error").2 (by decide),
   (c5_create_insert_failure_dispatch "u" 1 { title := "t", content := "c" }
     [c5Note] "io error").1⟩
